import Mathlib

/-!
Verification of the `bspheres` Blender scripting package
(`src/bspheres/__init__.py`).

The package's own logic is modelled shallowly over ℚ:

* Python `float` arithmetic is idealised as exact rational arithmetic;
* the `random` module is modelled as an explicit stream of unit samples
  (`Rng`), with `random.uniform(a, b) = a + (b - a) * u` for a stream
  value `u ∈ [0, 1]`, and `random.seed(s)` replacing the stream by one
  determined by `s`;
* the unbounded `while` retry loop of `place_objects_randomly` is given
  a fuel parameter and returns `none` when the fuel is exhausted, so
  that non-termination within any bound is expressible;
* the effects of the `bpy` host API are modelled as explicit state:
  a scene is a list of objects, keyframe insertion records the current
  property value in a list, and rendering produces a trace of events.
-/

/-- A 3-component vector, as the Python code's 3-element location lists. -/
abbrev Vec3 : Type := ℚ × ℚ × ℚ

/-- Componentwise difference of two vectors. -/
def vsub (a b : Vec3) : Vec3 :=
  (a.1 - b.1, a.2.1 - b.2.1, a.2.2 - b.2.2)

/-- Scalar multiple of a vector. -/
def vsmul (t : ℚ) (v : Vec3) : Vec3 :=
  (t * v.1, t * v.2.1, t * v.2.2)

/-- Model of the global state of Python's `random` module: a stream of
unit-interval samples and a position into it. -/
structure Rng where
  stream : ℕ → ℚ
  pos : ℕ

/-- Draw the next unit sample from the stream. -/
def rngNextUnit (g : Rng) : ℚ × Rng :=
  (g.stream g.pos, { g with pos := g.pos + 1 })

/-- Model of `random.uniform(a, b)`: `a + (b - a) * random()`. -/
def randUniform (a b : ℚ) (g : Rng) : ℚ × Rng :=
  let p := rngNextUnit g
  (a + (b - a) * p.1, p.2)

/-- Model of `random.choice(seq)`: draw one sample and pick the element
at the induced index (clamped into range). -/
def randChoice (seq : List ℚ) (g : Rng) : ℚ × Rng :=
  let p := rngNextUnit g
  let idx := min (Nat.floor (p.1 * seq.length)) (seq.length - 1)
  (seq.getD idx 0, p.2)

/-- The stream-in-unit-interval hypothesis under which `randUniform`
models `random.uniform`. -/
def UnitStream (g : Rng) : Prop :=
  ∀ i, 0 ≤ g.stream i ∧ g.stream i ≤ 1

/-- Source `_location_overlaps(location, radius, items)`: true iff the
candidate circle of centre `location` and radius `radius` comes closer
than the sum of radii to some already-placed `(location, radius)` pair. -/
def location_overlaps (location : Vec3) (radius : ℚ) (items : List (Vec3 × ℚ)) : Bool :=
  items.any fun o =>
    let loc := o.1
    let rad := o.2
    let min_d2 := (radius + rad) ^ 2
    let dv := vsub loc location
    let d2 := dv.1 * dv.1 + dv.2.1 * dv.2.1 + dv.2.2 * dv.2.2
    decide (d2 < min_d2)

/-- Squared Euclidean distance between two locations, as computed inside
`_location_overlaps`. -/
def dist2 (a b : Vec3) : ℚ :=
  let dv := vsub a b
  dv.1 * dv.1 + dv.2.1 * dv.2.1 + dv.2.2 * dv.2.2

/-- Source `place_objects_randomly` candidate sampling:
`[random.uniform(-arena_size/2, +arena_size/2) for _ in range(2)]` with
`0` appended as z coordinate. -/
def sampleLocation (arena_size : ℚ) (g : Rng) : Vec3 × Rng :=
  let px := randUniform (-arena_size / 2) (arena_size / 2) g
  let py := randUniform (-arena_size / 2) (arena_size / 2) px.2
  ((px.1, py.1, 0), py.2)

/-- The `while _location_overlaps(...)` retry loop of
`place_objects_randomly`, with fuel: `loc` is the current candidate; if
it overlaps, a fresh candidate is drawn and the loop continues, giving
up (`none`) when `fuel` resamples have been spent. -/
def retryLoop (fuel : ℕ) (radius arena_size : ℚ) (items : List (Vec3 × ℚ))
    (loc : Vec3) (g : Rng) : Option (Vec3 × Rng) :=
  if location_overlaps loc radius items then
    match fuel with
    | 0 => none
    | f + 1 =>
      let p := sampleLocation arena_size g
      retryLoop f radius arena_size items p.1 p.2
  else
    some (loc, g)

/-- One sphere placed by `place_objects_randomly`: the material
brightness, the drawn radius, the accepted location, and the drawn
initial velocity. -/
structure PlacedSphere where
  brightness : ℚ
  radius : ℚ
  location : Vec3
  velocity : Vec3
deriving DecidableEq, Repr

/-- One iteration of the `for o in range(count)` body of
`place_objects_randomly`: draw a radius, draw a candidate location,
run the retry loop against `items`, then draw the two velocity
components. -/
def placeOne (fuel : ℕ) (o count : ℕ) (radius_range : ℚ × ℚ) (arena_size : ℚ)
    (initial_velocities : List ℚ) (items : List (Vec3 × ℚ)) (g : Rng) :
    Option (PlacedSphere × Rng) :=
  let brightness := 1 - 8/10 * (o : ℚ) / (count : ℚ)
  let pr := randUniform radius_range.1 radius_range.2 g
  let radius := pr.1
  let pl := sampleLocation arena_size pr.2
  match retryLoop fuel radius arena_size items pl.1 pl.2 with
  | none => none
  | some (location, g) =>
    let pvx := randChoice initial_velocities g
    let pvy := randChoice initial_velocities pvx.2
    some (⟨brightness, radius, location, (pvx.1, pvy.1, 0)⟩, pvy.2)

/-- The `for o in range(count)` loop of `place_objects_randomly`,
recursing on the number of spheres still to place; `o` is the index of
the next sphere, and `items` accumulates `(location, radius)` pairs of
the spheres already placed. -/
def placeFrom (fuel count : ℕ) (radius_range : ℚ × ℚ) (arena_size : ℚ)
    (initial_velocities : List ℚ) (o remaining : ℕ) (items : List (Vec3 × ℚ))
    (g : Rng) : Option (List PlacedSphere × Rng) :=
  match remaining with
  | 0 => some ([], g)
  | r + 1 =>
    match placeOne fuel o count radius_range arena_size initial_velocities items g with
    | none => none
    | some (s, g) =>
      match placeFrom fuel count radius_range arena_size initial_velocities
          (o + 1) r (items ++ [(s.location, s.radius)]) g with
      | none => none
      | some (rest, g) => some (s :: rest, g)

/-- Source `place_objects_randomly(count, radius_range, arena_size,
initial_velocities, time_step)`, with fuel bounding each retry loop. -/
def place_objects_randomly (fuel count : ℕ) (radius_range : ℚ × ℚ)
    (arena_size : ℚ) (initial_velocities : List ℚ) (g : Rng) :
    Option (List PlacedSphere × Rng) :=
  placeFrom fuel count radius_range arena_size initial_velocities 0 count [] g

/-- A recorded keyframe value: either the kinematic flag or a location. -/
inductive KeyVal where
  | kin (b : Bool)
  | loc (v : Vec3)
deriving DecidableEq, Repr

/-- One keyframe inserted by `keyframe_insert(data_path, frame)`:
the data path, the frame number, and the property value at insertion
time. -/
structure Keyframe where
  path : String
  frame : ℕ
  value : KeyVal
deriving DecidableEq, Repr

/-- The mutable state of a `PhysicsSphere` that `set_initial_velocity`
touches: its location, its `rigid_body.kinematic` flag, and the
keyframes inserted so far. -/
structure SphereState where
  location : Vec3
  kinematic : Bool
  keyframes : List Keyframe
deriving DecidableEq, Repr

/-- Source `PhysicsSphere._compute_initial_location(initial_velocity,
time)`: the location itself when `time == 0.0`, else
`location[x] - time * initial_velocity[x]` componentwise. -/
def compute_initial_location (s : SphereState) (initial_velocity : Vec3) (time : ℚ) : Vec3 :=
  if time = 0 then s.location
  else
    (s.location.1 - time * initial_velocity.1,
     s.location.2.1 - time * initial_velocity.2.1,
     s.location.2.2 - time * initial_velocity.2.2)

/-- Source `PhysicsSphere.set_initial_velocity(velocity, time_step)`:
save the displaced location `loc0` and the current location `loc1`, set
kinematic, keyframe the flag and `loc0` at frame 1, keyframe `loc1` at
frame 2, clear kinematic and keyframe the flag at frame 3. -/
def set_initial_velocity (s : SphereState) (velocity : Vec3) (time_step : ℚ) : SphereState :=
  let loc0 := compute_initial_location s velocity time_step
  let loc1 := s.location
  let s1 := { s with kinematic := true, location := loc0 }
  let s2 := { s1 with keyframes := s1.keyframes
    ++ [Keyframe.mk "rigid_body.kinematic" 1 (KeyVal.kin s1.kinematic)] }
  let s3 := { s2 with keyframes := s2.keyframes
    ++ [Keyframe.mk "location" 1 (KeyVal.loc s2.location)] }
  let s4 := { s3 with location := loc1 }
  let s5 := { s4 with keyframes := s4.keyframes
    ++ [Keyframe.mk "location" 2 (KeyVal.loc s4.location)] }
  let s6 := { s5 with kinematic := false }
  { s6 with keyframes := s6.keyframes
    ++ [Keyframe.mk "rigid_body.kinematic" 3 (KeyVal.kin s6.kinematic)] }

/-- Python `'%04d' % k` for a natural `k`: the decimal digits of `k`,
left-padded with zeros to a minimum width of 4. -/
def format04 (k : ℕ) : String :=
  let s := toString k
  String.mk (List.replicate (4 - s.length) '0') ++ s

/-- One observable step of `render_frames`: a `scene.frame_set(f)` call
or a rendered still written to `path`. -/
inductive RenderEvent where
  | frameSet (f : ℕ)
  | writeImage (path : String)
deriving DecidableEq, Repr

/-- The observable outcome of `render_frames`: the frame range written
into the scene and the ordered trace of frame steps and image writes. -/
structure RenderResult where
  frame_start : ℕ
  frame_end : ℕ
  events : List RenderEvent
deriving DecidableEq, Repr

/-- One loop iteration of `render_frames`: step to frame `f`
(`scene.frame_set(f)`), then write the still unless `f <= 1`. -/
def renderStep (image_folder : String) (f : ℕ) : List RenderEvent :=
  RenderEvent.frameSet f ::
    (if f ≤ 1 then []
     else [RenderEvent.writeImage
       (image_folder ++ "/frame_" ++ format04 (f - 1) ++ ".png")])

/-- Source `render_frames(image_folder, count, resolution)`: set
`frame_start = 1`, `frame_end = count + 1`, then
`for f in range(1, frame_end + 1)`: step to frame `f`, skip the write
when `f <= 1`, otherwise write `image_folder + '/frame_%04d.png' % (f-1)`. -/
def render_frames (image_folder : String) (count : ℕ) : RenderResult :=
  let frame_end := count + 1
  ⟨1, frame_end, (List.range' 1 frame_end).flatMap (renderStep image_folder)⟩

/-- The sequence of frames stepped in a render trace, in order. -/
def framesStepped (evs : List RenderEvent) : List ℕ :=
  evs.filterMap fun e =>
    match e with
    | RenderEvent.frameSet f => some f
    | _ => none

/-- The image paths written in a render trace, in order. -/
def imagesWritten (evs : List RenderEvent) : List String :=
  evs.filterMap fun e =>
    match e with
    | RenderEvent.writeImage p => some p
    | _ => none

/-- A Blender object type, as `bpy` object `.type` strings. -/
inductive BType where
  | MESH
  | CAMERA
  | LAMP
deriving DecidableEq, Repr

/-- The geometric kind of a scene object, distinguishing the primitives
the scripts could create (`primitive_ico_sphere_add` is the only mesh
primitive any of them calls). -/
inductive Shape where
  | cube
  | icoSphere
  | flatPlane
  | cameraShape
  | lampShape
deriving DecidableEq, Repr

/-- A scene object as `delete_all_meshes` sees it: its type, its shape,
and its selection flag. -/
structure SceneObject where
  btype : BType
  shape : Shape
  selected : Bool
deriving DecidableEq, Repr

/-- The selection pass of `delete_all_meshes`: `o.select = True` for
objects of type `'MESH'`, `o.select = False` otherwise. -/
def select_meshes (objs : List SceneObject) : List SceneObject :=
  objs.map fun o => { o with selected := o.btype = BType.MESH }

/-- Model of `bpy.ops.object.delete()`: the selected objects leave the
scene. -/
def delete_selected (objs : List SceneObject) : List SceneObject :=
  objs.filter fun o => !o.selected

/-- Source `delete_all_meshes()`: select exactly the mesh objects, then
delete the selected objects. -/
def delete_all_meshes (objs : List SceneObject) : List SceneObject :=
  delete_selected (select_meshes objs)

/-- The scene state that `Simulation.run` manipulates: the object list
and the scene gravity vector. -/
structure SceneState where
  objects : List SceneObject
  gravity : Vec3
deriving DecidableEq, Repr

/-- Source `Simulation.__init__` fields. -/
structure Simulation where
  sphere_count : ℕ
  arena_size : ℚ
  radius_range : ℚ × ℚ
  initial_velocities : List ℚ
  random_seed : ℤ

/-- The scene object created for each placed sphere by
`bpy.ops.mesh.primitive_ico_sphere_add` (new primitives enter the scene
as the selected active object). -/
def sphereObject : SceneObject :=
  ⟨BType.MESH, Shape.icoSphere, true⟩

/-- Source `Simulation.run` up to the render call: delete all meshes,
point the camera (object list unchanged), zero the scene gravity, seed
the random module — `seedFn` maps a seed to the stream that
`random.seed` installs, discarding the previous generator state `g0` —
and place the spheres; the result is the final scene state paired with
the placed spheres, or `none` when a retry loop exhausts its fuel. -/
def Simulation.run (seedFn : ℤ → ℕ → ℚ) (fuel : ℕ) (sim : Simulation)
    (scene0 : List SceneObject) (g0 : Rng) :
    Option (SceneState × List PlacedSphere) :=
  let objs := delete_all_meshes scene0
  let _ := g0
  let g : Rng := ⟨seedFn sim.random_seed, 0⟩
  match place_objects_randomly fuel sim.sphere_count sim.radius_range
      sim.arena_size sim.initial_velocities g with
  | none => none
  | some (spheres, _) =>
    some (⟨objs ++ spheres.map (fun _ => sphereObject), (0, 0, 0)⟩, spheres)

/-- The location keyframes in a keyframe list, as `(frame, value)`
pairs in insertion order. -/
def locationKeyframes (ks : List Keyframe) : List (ℕ × Vec3) :=
  ks.filterMap fun k =>
    if k.path = "location" then
      match k.value with
      | KeyVal.loc v => some (k.frame, v)
      | _ => none
    else none

/-- A location lies in the square arena with z = 0, as every candidate
drawn by `place_objects_randomly` does. -/
def InArena (arena_size : ℚ) (loc : Vec3) : Prop :=
  -arena_size / 2 ≤ loc.1 ∧ loc.1 ≤ arena_size / 2
    ∧ -arena_size / 2 ≤ loc.2.1 ∧ loc.2.1 ≤ arena_size / 2
    ∧ loc.2.2 = 0

/-- The default Blender startup scene as the scripts assume it: the
default cube, a camera, and a lamp. -/
def defaultScene : List SceneObject :=
  [⟨BType.MESH, Shape.cube, false⟩,
   ⟨BType.CAMERA, Shape.cameraShape, false⟩,
   ⟨BType.LAMP, Shape.lampShape, false⟩]

/-- The scene state the concrete default-scene run produces. -/
def runWitnessState : SceneState :=
  ⟨[⟨BType.CAMERA, Shape.cameraShape, false⟩,
    ⟨BType.LAMP, Shape.lampShape, false⟩, sphereObject, sphereObject],
   (0, 0, 0)⟩

/-- The spheres the concrete default-scene run places. -/
def runWitnessSpheres : List PlacedSphere :=
  [⟨1, 4/5, (-5, -5, 0), (-5, -5, 0)⟩, ⟨3/5, 6/5, (5, 5, 0), (5, 5, 0)⟩]

/-- The single sphere the concrete one-sphere placement produces. -/
def boundsWitnessSphere : PlacedSphere :=
  ⟨1, 1, (-5, -5, 0), (1, 1, 0)⟩

/-- `_compute_initial_location` agrees with `location - time * velocity`
componentwise for every `time`, the `time == 0.0` branch included. -/
theorem compute_initial_location_eq (s : SphereState) (v : Vec3) (dt : ℚ) :
    compute_initial_location s v dt = vsub s.location (vsmul dt v) := by
  obtain ⟨x, y, z⟩ := s
  obtain ⟨lx, ly, lz⟩ := x
  unfold compute_initial_location vsub vsmul
  by_cases h : dt = 0 <;> simp [h]

/-- C3: the keyframes appended by one `set_initial_velocity` call are
exactly: the kinematic flag, set `true`, at frame 1; the location at
frames 1 and 2 (and at no other frame); and the kinematic flag, set
`false`, at frame 3 — so the body is physics-driven from frame 3 on. -/
theorem set_initial_velocity_schedule (s : SphereState) (v : Vec3) (dt : ℚ) :
    (set_initial_velocity s v dt).keyframes = s.keyframes ++
      [Keyframe.mk "rigid_body.kinematic" 1 (KeyVal.kin true),
       Keyframe.mk "location" 1 (KeyVal.loc (compute_initial_location s v dt)),
       Keyframe.mk "location" 2 (KeyVal.loc s.location),
       Keyframe.mk "rigid_body.kinematic" 3 (KeyVal.kin false)] := by
  simp [set_initial_velocity]

/-- C2: `set_initial_velocity` keyframes the displaced position
`location - dt * v` (componentwise) at frame 1 and the true starting
location at frame 2, and `_compute_initial_location` returns the
location unchanged when `dt = 0`. -/
theorem set_initial_velocity_locations (s : SphereState) (v : Vec3) (dt : ℚ) :
    locationKeyframes (set_initial_velocity s v dt).keyframes
        = locationKeyframes s.keyframes
          ++ [(1, vsub s.location (vsmul dt v)), (2, s.location)]
      ∧ compute_initial_location s v 0 = s.location := by
  refine ⟨?_, by simp [compute_initial_location]⟩
  simp [set_initial_velocity, locationKeyframes, List.filterMap_append,
    compute_initial_location_eq]

/-- C8: `set_initial_velocity` restores the location it displaced: the
object's location after the call equals its location before, and the
kinematic flag ends up `false`. -/
theorem set_initial_velocity_net_effect (s : SphereState) (v : Vec3) (dt : ℚ) :
    (set_initial_velocity s v dt).location = s.location
      ∧ (set_initial_velocity s v dt).kinematic = false := by
  simp [set_initial_velocity]

/-- C9: after the selection pass every non-mesh object is deselected,
and the delete removes exactly the mesh objects: the scene afterwards
consists of the original non-mesh objects (now deselected), in order. -/
theorem delete_all_meshes_spec (objs : List SceneObject) :
    (∀ o ∈ select_meshes objs, o.btype ≠ BType.MESH → o.selected = false)
      ∧ delete_all_meshes objs
        = (objs.filter fun o => decide (o.btype ≠ BType.MESH)).map
            (fun o => { o with selected := false }) := by
  constructor
  · intro o ho hne
    simp only [select_meshes, List.mem_map] at ho
    obtain ⟨o', _, rfl⟩ := ho
    simpa using hne
  · unfold delete_all_meshes delete_selected select_meshes
    induction objs with
    | nil => rfl
    | cons a l ih =>
      by_cases h : a.btype = BType.MESH <;>
        simp [List.filter_cons, h, ih]

/-- Stepping events split over list append. -/
theorem framesStepped_append (xs ys : List RenderEvent) :
    framesStepped (xs ++ ys) = framesStepped xs ++ framesStepped ys := by
  simp [framesStepped, List.filterMap_append]

/-- Write events split over list append. -/
theorem imagesWritten_append (xs ys : List RenderEvent) :
    imagesWritten (xs ++ ys) = imagesWritten xs ++ imagesWritten ys := by
  simp [imagesWritten, List.filterMap_append]

/-- Each loop iteration of `render_frames` steps its own frame, once. -/
theorem framesStepped_renderStep (folder : String) (f : ℕ) :
    framesStepped (renderStep folder f) = [f] := by
  unfold renderStep framesStepped
  by_cases h : f ≤ 1 <;> simp [h]

/-- The whole render loop steps exactly the frames of the given list. -/
theorem framesStepped_flatMap (folder : String) (l : List ℕ) :
    framesStepped (l.flatMap (renderStep folder)) = l := by
  induction l with
  | nil => rfl
  | cons a l ih =>
    rw [List.flatMap_cons, framesStepped_append, framesStepped_renderStep, ih]
    rfl

/-- A loop iteration at frame `f ≥ 2` writes exactly the image numbered
`f - 1`. -/
theorem imagesWritten_renderStep (folder : String) (f : ℕ) (h : 2 ≤ f) :
    imagesWritten (renderStep folder f)
      = [folder ++ "/frame_" ++ format04 (f - 1) ++ ".png"] := by
  have h1 : ¬ f ≤ 1 := by omega
  unfold renderStep imagesWritten
  simp [h1]

/-- Over a list of frames all at least 2, the render loop writes one
image per frame, numbered one less than the frame. -/
theorem imagesWritten_flatMap (folder : String) (l : List ℕ)
    (h : ∀ f ∈ l, 2 ≤ f) :
    imagesWritten (l.flatMap (renderStep folder))
      = l.map (fun f => folder ++ "/frame_" ++ format04 (f - 1) ++ ".png") := by
  induction l with
  | nil => rfl
  | cons a l ih =>
    rw [List.flatMap_cons, imagesWritten_append,
      imagesWritten_renderStep folder a (h a (by simp)),
      ih (fun f hf => h f (by simp [hf]))]
    rfl

/-- C7: `render_frames` with frame count `n` sets the scene frame range
to `1 .. n + 1`, steps exactly the frames `1, 2, ..., n + 1` in
increasing order, and writes exactly `n` stills, named
`frame_0001.png` up to `frame_%04d.png` for `%04d = n` (frame `f` is
written under number `f - 1`; frame 1 is stepped but never written). -/
theorem render_frames_spec (folder : String) (count : ℕ) :
    (render_frames folder count).frame_start = 1
      ∧ (render_frames folder count).frame_end = count + 1
      ∧ framesStepped (render_frames folder count).events
          = List.range' 1 (count + 1)
      ∧ imagesWritten (render_frames folder count).events
          = (List.range' 1 count).map
              (fun k => folder ++ "/frame_" ++ format04 k ++ ".png") := by
  refine ⟨rfl, rfl, framesStepped_flatMap folder _, ?_⟩
  show imagesWritten ((List.range' 1 (count + 1)).flatMap (renderStep folder)) = _
  rw [List.range'_succ]
  rw [List.flatMap_cons, imagesWritten_append]
  have h2 : ∀ f ∈ List.range' 2 count, 2 ≤ f := by
    intro f hf
    exact (List.mem_range'_1.mp hf).1
  rw [imagesWritten_flatMap folder _ h2]
  have hmap : List.range' 2 count = (List.range' 1 count).map (1 + ·) := by
    rw [List.map_add_range']
  rw [hmap, List.map_map]
  have : imagesWritten (renderStep folder 1) = [] := by
    unfold renderStep imagesWritten
    simp
  rw [this]
  simp only [List.nil_append]
  apply List.map_congr_left
  intro k _
  simp [Function.comp]

/-- `_location_overlaps` is `False` exactly when the squared distance to
every previously placed circle is at least the squared sum of radii. -/
theorem location_overlaps_eq_false (loc : Vec3) (radius : ℚ)
    (items : List (Vec3 × ℚ)) :
    location_overlaps loc radius items = false
      ↔ ∀ p ∈ items, (radius + p.2) ^ 2 ≤ dist2 p.1 loc := by
  unfold location_overlaps dist2 vsub
  simp [List.any_eq_false, not_lt]

/-- When the current candidate does not overlap, the retry loop exits at
once with that candidate, whatever the fuel. -/
theorem retryLoop_exit (fuel : ℕ) (radius arena_size : ℚ)
    (items : List (Vec3 × ℚ)) (loc : Vec3) (g : Rng)
    (h : location_overlaps loc radius items = false) :
    retryLoop fuel radius arena_size items loc g = some (loc, g) := by
  unfold retryLoop
  simp [h]

/-- Any location the retry loop accepts fails `_location_overlaps`. -/
theorem retryLoop_no_overlap {radius arena_size : ℚ}
    {items : List (Vec3 × ℚ)} :
    ∀ (fuel : ℕ) (loc : Vec3) (g : Rng) {l : Vec3} {g' : Rng},
      retryLoop fuel radius arena_size items loc g = some (l, g') →
      location_overlaps l radius items = false := by
  intro fuel
  induction fuel with
  | zero =>
    intro loc g l g' h
    unfold retryLoop at h
    by_cases hov : location_overlaps loc radius items <;> simp [hov] at h
    obtain ⟨rfl, rfl⟩ := h
    simpa using hov
  | succ f ih =>
    intro loc g l g' h
    unfold retryLoop at h
    by_cases hov : location_overlaps loc radius items
    · simp only [hov, if_true] at h
      exact ih _ _ h
    · simp [hov] at h
      obtain ⟨rfl, rfl⟩ := h
      simpa using hov

/-- C1 counterexample: with one previously placed unit circle at the
origin, the candidate `(2, 0, 0)` of radius 1 is accepted immediately,
yet its distance to that circle's centre equals — does not exceed — the
sum of the two radii (both are 2; the squared values are equal). -/
theorem boundary_candidate_accepted :
    retryLoop 0 1 10 [((0, 0, 0), 1)] (2, 0, 0) ⟨fun _ => 0, 0⟩
        = some ((2, 0, 0), ⟨fun _ => 0, 0⟩)
      ∧ dist2 (0, 0, 0) (2, 0, 0) = (1 + 1) ^ 2 := by
  constructor
  · apply retryLoop_exit
    norm_num [location_overlaps, vsub]
  · norm_num [dist2, vsub]

/-- C1 amended: every location accepted by the retry loop satisfies
`_location_overlaps = False`, i.e. its squared distance to every
previously placed circle's centre is at least — not necessarily
strictly greater than — the squared sum of the two radii. -/
theorem retryLoop_accepted_separation (fuel : ℕ) (radius arena_size : ℚ)
    (items : List (Vec3 × ℚ)) (loc : Vec3) (g : Rng) (l : Vec3) (g' : Rng)
    (h : retryLoop fuel radius arena_size items loc g = some (l, g')) :
    location_overlaps l radius items = false
      ∧ ∀ p ∈ items, (radius + p.2) ^ 2 ≤ dist2 p.1 l := by
  have hov := retryLoop_no_overlap fuel loc g h
  exact ⟨hov, (location_overlaps_eq_false l radius items).mp hov⟩

/-- Witness for `retryLoop_accepted_separation` at a concrete accepted
location, instantiated at the single previously placed circle. -/
theorem retryLoop_accepted_separation_witness :
    location_overlaps (3, 0, 0) 1 [((0, 0, 0), 1)] = false
      ∧ ((1 : ℚ) + 1) ^ 2 ≤ dist2 (0, 0, 0) (3, 0, 0) :=
  have h := retryLoop_accepted_separation 0 1 10 [((0, 0, 0), 1)] (3, 0, 0)
    ⟨fun _ => 0, 0⟩ (3, 0, 0) ⟨fun _ => 0, 0⟩
    (retryLoop_exit 0 1 10 [((0, 0, 0), 1)] (3, 0, 0) ⟨fun _ => 0, 0⟩
      (by norm_num [location_overlaps, vsub]))
  ⟨h.1, h.2 ((0, 0, 0), 1) (by simp)⟩

/-- `randUniform` does not change the sample stream. -/
theorem randUniform_stream (a b : ℚ) (g : Rng) :
    (randUniform a b g).2.stream = g.stream := rfl

/-- `sampleLocation` does not change the sample stream. -/
theorem sampleLocation_stream (a : ℚ) (g : Rng) :
    (sampleLocation a g).2.stream = g.stream := rfl

/-- `randChoice` does not change the sample stream. -/
theorem randChoice_stream (seq : List ℚ) (g : Rng) :
    (randChoice seq g).2.stream = g.stream := rfl

/-- `UnitStream` only depends on the stream. -/
theorem unitStream_congr {g g' : Rng} (h : g'.stream = g.stream)
    (hg : UnitStream g) : UnitStream g' := by
  intro i
  rw [h]
  exact hg i

/-- A `randUniform a b` draw lies in `[a, b]` when `a ≤ b` and the
stream stays in the unit interval. -/
theorem randUniform_bounds {a b : ℚ} (hab : a ≤ b) {g : Rng}
    (hg : UnitStream g) :
    a ≤ (randUniform a b g).1 ∧ (randUniform a b g).1 ≤ b := by
  obtain ⟨h0, h1⟩ := hg g.pos
  unfold randUniform rngNextUnit
  dsimp only
  constructor <;> nlinarith

/-- Every candidate drawn by `sampleLocation` lies in the arena. -/
theorem sampleLocation_inArena {arena_size : ℚ} (ha : 0 ≤ arena_size)
    {g : Rng} (hg : UnitStream g) :
    InArena arena_size (sampleLocation arena_size g).1 := by
  have hab : -arena_size / 2 ≤ arena_size / 2 := by linarith
  have hg2 : UnitStream (randUniform (-arena_size / 2) (arena_size / 2) g).2 :=
    unitStream_congr (randUniform_stream _ _ g) hg
  exact ⟨(randUniform_bounds hab hg).1, (randUniform_bounds hab hg).2,
    (randUniform_bounds hab hg2).1, (randUniform_bounds hab hg2).2, rfl⟩

/-- Inside a 10-wide arena, every candidate overlaps a circle of radius
100 centred at the origin: the requested circle cannot fit. -/
theorem covered_overlaps (loc : Vec3) (hloc : InArena 10 loc) :
    location_overlaps loc 1 [((0, 0, 0), 100)] = true := by
  obtain ⟨x, yz⟩ := loc
  obtain ⟨y, z⟩ := yz
  obtain ⟨h1, h2, h3, h4, h5⟩ := hloc
  simp only at h1 h2 h3 h4 h5
  subst h5
  unfold location_overlaps vsub
  simp only [List.any_cons, List.any_nil, Bool.or_false,
    decide_eq_true_eq]
  norm_num
  nlinarith

/-- C4: the retry loop has no bound on its retry count — when the
requested circle cannot fit (here a previously placed circle of radius
100 covers the whole 10-wide arena), the loop rejects the initial
candidate and every one of its `fuel` resamples, for every `fuel`: after
any number `n` of draws it is still running, so more than `n` candidates
are sampled and termination is never reached. -/
theorem retryLoop_unbounded (g : Rng) (loc : Vec3) (fuel : ℕ)
    (hg : UnitStream g) (hloc : InArena 10 loc) :
    retryLoop fuel 1 10 [((0, 0, 0), 100)] loc g = none := by
  induction fuel generalizing loc g with
  | zero =>
    unfold retryLoop
    rw [covered_overlaps loc hloc, if_pos rfl]
  | succ f ih =>
    unfold retryLoop
    rw [covered_overlaps loc hloc, if_pos rfl]
    exact ih _ _ (unitStream_congr (sampleLocation_stream 10 g) hg)
      (sampleLocation_inArena (by norm_num) hg)

/-- Witness for `retryLoop_unbounded`: a concrete all-zero stream and
candidate, with fuel 2. -/
theorem retryLoop_unbounded_witness :
    retryLoop 2 1 10 [((0, 0, 0), 100)] (0, 0, 0) ⟨fun _ => 0, 0⟩ = none :=
  retryLoop_unbounded ⟨fun _ => 0, 0⟩ (0, 0, 0) 2
    (fun _ => ⟨le_refl 0, by norm_num⟩)
    (by unfold InArena; norm_num)

/-- An accepted retry-loop location lies in the arena (it is either the
initial candidate or a resample, both drawn by `sampleLocation`), and
the loop does not change the sample stream. -/
theorem retryLoop_inArena {radius arena_size : ℚ} {items : List (Vec3 × ℚ)}
    (ha : 0 ≤ arena_size) :
    ∀ (fuel : ℕ) (loc : Vec3) (g : Rng) {l : Vec3} {g' : Rng},
      UnitStream g → InArena arena_size loc →
      retryLoop fuel radius arena_size items loc g = some (l, g') →
      InArena arena_size l ∧ g'.stream = g.stream := by
  intro fuel
  induction fuel with
  | zero =>
    intro loc g l g' hg hloc h
    unfold retryLoop at h
    by_cases hov : location_overlaps loc radius items <;> simp [hov] at h
    obtain ⟨rfl, rfl⟩ := h
    exact ⟨hloc, rfl⟩
  | succ f ih =>
    intro loc g l g' hg hloc h
    unfold retryLoop at h
    by_cases hov : location_overlaps loc radius items
    · simp only [hov, if_true] at h
      have hg2 : UnitStream (sampleLocation arena_size g).2 :=
        unitStream_congr (sampleLocation_stream arena_size g) hg
      have hres := ih _ _ hg2 (sampleLocation_inArena ha hg) h
      exact ⟨hres.1, hres.2.trans (sampleLocation_stream arena_size g)⟩
    · simp [hov] at h
      obtain ⟨rfl, rfl⟩ := h
      exact ⟨hloc, rfl⟩

/-- One placement iteration yields a sphere inside the arena with a
radius inside the requested range, and keeps the sample stream. -/
theorem placeOne_spec {fuel o count : ℕ} {radius_range : ℚ × ℚ}
    {arena_size : ℚ} {initial_velocities : List ℚ}
    {items : List (Vec3 × ℚ)} {g : Rng} {s : PlacedSphere} {g' : Rng}
    (hg : UnitStream g) (ha : 0 ≤ arena_size)
    (hr : radius_range.1 ≤ radius_range.2)
    (h : placeOne fuel o count radius_range arena_size initial_velocities
        items g = some (s, g')) :
    InArena arena_size s.location
      ∧ radius_range.1 ≤ s.radius ∧ s.radius ≤ radius_range.2
      ∧ g'.stream = g.stream := by
  unfold placeOne at h
  dsimp only at h
  have hrad := randUniform_bounds hr hg
  have hg1 : UnitStream (randUniform radius_range.1 radius_range.2 g).2 :=
    unitStream_congr (randUniform_stream _ _ g) hg
  have hloc := sampleLocation_inArena ha hg1
  set pl := sampleLocation arena_size (randUniform radius_range.1 radius_range.2 g).2 with hpl
  cases hret : retryLoop fuel (randUniform radius_range.1 radius_range.2 g).1
      arena_size items pl.1 pl.2 with
  | none => rw [hret] at h; simp at h
  | some p =>
    obtain ⟨loc, g2⟩ := p
    have hg2 : UnitStream pl.2 :=
      unitStream_congr (sampleLocation_stream _ _) hg1
    have hacc := retryLoop_inArena ha fuel pl.1 pl.2 hg2 hloc hret
    rw [hret] at h
    simp only [Option.some.injEq, Prod.mk.injEq] at h
    obtain ⟨hs, hg'⟩ := h
    subst hs
    subst hg'
    refine ⟨hacc.1, hrad.1, hrad.2, ?_⟩
    calc (randChoice initial_velocities
            (randChoice initial_velocities g2).2).2.stream
        = g2.stream := rfl
      _ = pl.2.stream := hacc.2
      _ = g.stream := rfl

/-- Every sphere produced by the placement loop from any starting index
lies in the arena with an in-range radius. -/
theorem placeFrom_spec {fuel count : ℕ} {radius_range : ℚ × ℚ}
    {arena_size : ℚ} {initial_velocities : List ℚ}
    (ha : 0 ≤ arena_size) (hr : radius_range.1 ≤ radius_range.2) :
    ∀ (remaining o : ℕ) (items : List (Vec3 × ℚ)) (g : Rng)
      {spheres : List PlacedSphere} {g' : Rng},
      UnitStream g →
      placeFrom fuel count radius_range arena_size initial_velocities
        o remaining items g = some (spheres, g') →
      ∀ s ∈ spheres, InArena arena_size s.location
        ∧ radius_range.1 ≤ s.radius ∧ s.radius ≤ radius_range.2 := by
  intro remaining
  induction remaining with
  | zero =>
    intro o items g spheres g' hg h
    unfold placeFrom at h
    simp at h
    obtain ⟨rfl, rfl⟩ := h
    intro s hs
    simp at hs
  | succ r ih =>
    intro o items g spheres g' hg h
    unfold placeFrom at h
    cases hone : placeOne fuel o count radius_range arena_size
        initial_velocities items g with
    | none => rw [hone] at h; simp at h
    | some p =>
      obtain ⟨s0, g2⟩ := p
      rw [hone] at h
      dsimp only at h
      have hs0 := placeOne_spec hg ha hr hone
      have hg2 : UnitStream g2 := unitStream_congr hs0.2.2.2 hg
      cases hrest : placeFrom fuel count radius_range arena_size
          initial_velocities (o + 1) r (items ++ [(s0.location, s0.radius)])
          g2 with
      | none => rw [hrest] at h; simp at h
      | some q =>
        obtain ⟨rest, g3⟩ := q
        rw [hrest] at h
        simp only [Option.some.injEq, Prod.mk.injEq] at h
        obtain ⟨rfl, rfl⟩ := h
        intro s hs
        rcases List.mem_cons.mp hs with rfl | hmem
        · exact ⟨hs0.1, hs0.2.1, hs0.2.2.1⟩
        · exact ih _ _ _ hg2 hrest s hmem

/-- C6: every sphere placed by `place_objects_randomly` has its centre's
x and y coordinates in the closed square
`[-arena_size/2, +arena_size/2]`, its z coordinate equal to 0, and its
radius in the closed interval `[radius_range[0], radius_range[1]]` —
the first candidate and every resample are drawn the same way, so the
bound holds for whichever the loop accepts. -/
theorem place_objects_randomly_bounds (fuel count : ℕ)
    (radius_range : ℚ × ℚ) (arena_size : ℚ) (initial_velocities : List ℚ)
    (g : Rng) (spheres : List PlacedSphere) (g' : Rng)
    (hg : UnitStream g) (ha : 0 ≤ arena_size)
    (hr : radius_range.1 ≤ radius_range.2)
    (h : place_objects_randomly fuel count radius_range arena_size
        initial_velocities g = some (spheres, g')) :
    ∀ s ∈ spheres,
      (-arena_size / 2 ≤ s.location.1 ∧ s.location.1 ≤ arena_size / 2)
        ∧ (-arena_size / 2 ≤ s.location.2.1 ∧ s.location.2.1 ≤ arena_size / 2)
        ∧ s.location.2.2 = 0
        ∧ radius_range.1 ≤ s.radius ∧ s.radius ≤ radius_range.2 := by
  intro s hs
  have := placeFrom_spec ha hr count 0 [] g hg h s hs
  obtain ⟨⟨h1, h2, h3, h4, h5⟩, h6, h7⟩ := this
  exact ⟨⟨h1, h2⟩, ⟨h3, h4⟩, h5, h6, h7⟩

/-- Witness for `place_objects_randomly_bounds`: the sphere placed by a
concrete one-sphere run from the all-zero stream. -/
theorem place_objects_randomly_bounds_witness :
    ((-10 : ℚ) / 2 ≤ boundsWitnessSphere.location.1
        ∧ boundsWitnessSphere.location.1 ≤ (10 : ℚ) / 2)
      ∧ ((-10 : ℚ) / 2 ≤ boundsWitnessSphere.location.2.1
        ∧ boundsWitnessSphere.location.2.1 ≤ (10 : ℚ) / 2)
      ∧ boundsWitnessSphere.location.2.2 = 0
      ∧ (1 : ℚ) ≤ boundsWitnessSphere.radius
      ∧ boundsWitnessSphere.radius ≤ (2 : ℚ) :=
  place_objects_randomly_bounds 0 1 (1, 2) 10 [1] ⟨fun _ => 0, 0⟩
    [boundsWitnessSphere] ⟨fun _ => 0, 5⟩
    (fun _ => ⟨le_refl 0, by norm_num⟩) (by norm_num) (by norm_num)
    (by
      simp [place_objects_randomly, placeFrom, placeOne, randUniform,
        rngNextUnit, sampleLocation, retryLoop, location_overlaps, randChoice,
        boundsWitnessSphere]
      norm_num)
    boundsWitnessSphere (by simp)

/-- C10: `Simulation.run` reseeds the random module from
`self.random_seed` before placement, so two runs with equal
`random_seed`, `sphere_count`, `arena_size`, `radius_range` and
`initial_velocities` produce identical placed-sphere sequences (radii,
locations and initial velocities alike), whatever generator state or
scene each run started from. -/
theorem run_placement_deterministic (seedFn : ℤ → ℕ → ℚ) (fuel : ℕ)
    (sim1 sim2 : Simulation) (scene1 scene2 : List SceneObject)
    (g0 g1 : Rng)
    (hseed : sim1.random_seed = sim2.random_seed)
    (hcount : sim1.sphere_count = sim2.sphere_count)
    (harena : sim1.arena_size = sim2.arena_size)
    (hrr : sim1.radius_range = sim2.radius_range)
    (hiv : sim1.initial_velocities = sim2.initial_velocities) :
    (Simulation.run seedFn fuel sim1 scene1 g0).map Prod.snd
      = (Simulation.run seedFn fuel sim2 scene2 g1).map Prod.snd := by
  unfold Simulation.run
  rw [hseed, hcount, harena, hrr, hiv]
  dsimp only
  rcases hpl : place_objects_randomly fuel sim2.sphere_count sim2.radius_range
      sim2.arena_size sim2.initial_velocities ⟨seedFn sim2.random_seed, 0⟩
    with _ | ⟨spheres, g⟩ <;> rfl

/-- Witness for `run_placement_deterministic`: equal parameters, a
different starting scene and a different pre-seed generator state. -/
theorem run_placement_deterministic_witness :
    (Simulation.run (fun _ _ => 0) 0 ⟨1, 10, (1, 2), [1], 4⟩ [] ⟨fun _ => 0, 0⟩).map Prod.snd
      = (Simulation.run (fun _ _ => 0) 0 ⟨1, 10, (1, 2), [1], 4⟩
          [⟨BType.CAMERA, Shape.cameraShape, false⟩] ⟨fun _ => 1, 7⟩).map Prod.snd :=
  run_placement_deterministic (fun _ _ => 0) 0
    ⟨1, 10, (1, 2), [1], 4⟩ ⟨1, 10, (1, 2), [1], 4⟩
    [] [⟨BType.CAMERA, Shape.cameraShape, false⟩]
    ⟨fun _ => 0, 0⟩ ⟨fun _ => 1, 7⟩ rfl rfl rfl rfl rfl

/-- C5 counterexample: a complete `Simulation.run` scene setup with the
source defaults (two spheres, the default arena and velocity choices)
succeeds — placing 2 spheres — and the resulting scene contains no flat
plane object at all: the script never creates one (and it zeroes
gravity), so the spheres do not collide on a plane. -/
theorem run_scene_contains_no_plane :
    ((Simulation.run (fun _ n => if n < 5 then 0 else 1) 0
        ⟨2, 10, (8/10, 12/10), [-5, -1, 0, 1, 5], 4⟩ defaultScene
        ⟨fun _ => 0, 0⟩).map
      (fun r => (r.2.length,
        r.1.objects.countP (fun o => decide (o.shape = Shape.flatPlane)))))
      = some (2, 0) := by
  simp [Simulation.run, delete_all_meshes, select_meshes, delete_selected,
    defaultScene, place_objects_randomly, placeFrom, placeOne, randUniform,
    rngNextUnit, sampleLocation, retryLoop, location_overlaps, randChoice,
    vsub, sphereObject, List.countP_cons]
  norm_num
  exact ⟨_, _, ⟨rfl, rfl⟩, rfl, by decide⟩

/-- No object surviving `delete_all_meshes` has type `'MESH'`. -/
theorem not_mesh_of_mem_delete_all_meshes {objs : List SceneObject}
    {o : SceneObject} (h : o ∈ delete_all_meshes objs) :
    o.btype ≠ BType.MESH := by
  unfold delete_all_meshes delete_selected select_meshes at h
  rw [List.mem_filter] at h
  obtain ⟨hmem, hsel⟩ := h
  rw [List.mem_map] at hmem
  obtain ⟨o', _, rfl⟩ := hmem
  simp only [Bool.not_eq_true'] at hsel
  simpa using of_decide_eq_false hsel

/-- C5 amended: after `Simulation.run` sets the scene up, the scene is
the de-meshed starting scene plus one icosphere object per placed
sphere, gravity is zeroed, and every mesh in the scene is an icosphere —
in particular the scene contains no flat plane for the spheres to
collide on. -/
theorem run_scene_spec (seedFn : ℤ → ℕ → ℚ) (fuel : ℕ) (sim : Simulation)
    (scene0 : List SceneObject) (g0 : Rng) (st : SceneState)
    (spheres : List PlacedSphere)
    (h : Simulation.run seedFn fuel sim scene0 g0 = some (st, spheres)) :
    st.objects = delete_all_meshes scene0 ++ spheres.map (fun _ => sphereObject)
      ∧ st.gravity = (0, 0, 0)
      ∧ ∀ o ∈ st.objects, o.btype = BType.MESH → o.shape = Shape.icoSphere := by
  unfold Simulation.run at h
  dsimp only at h
  rcases hpl : place_objects_randomly fuel sim.sphere_count sim.radius_range
      sim.arena_size sim.initial_velocities ⟨seedFn sim.random_seed, 0⟩
    with _ | ⟨sph, g⟩ <;> rw [hpl] at h
  · simp at h
  · simp only [Option.some.injEq, Prod.mk.injEq] at h
    obtain ⟨hst, rfl⟩ := h
    subst hst
    refine ⟨rfl, rfl, ?_⟩
    intro o ho hmesh
    rcases List.mem_append.mp ho with hl | hr
    · exact absurd hmesh (not_mesh_of_mem_delete_all_meshes hl)
    · obtain ⟨_, _, rfl⟩ := List.mem_map.mp hr
      rfl

/-- Witness for `run_scene_spec` on the concrete default-scene run,
instantiated at one of the placed sphere objects. -/
theorem run_scene_spec_witness :
    runWitnessState.objects
        = delete_all_meshes defaultScene
          ++ runWitnessSpheres.map (fun _ => sphereObject)
      ∧ runWitnessState.gravity = (0, 0, 0)
      ∧ sphereObject.shape = Shape.icoSphere :=
  have h := run_scene_spec (fun _ n => if n < 5 then 0 else 1) 0
    ⟨2, 10, (8/10, 12/10), [-5, -1, 0, 1, 5], 4⟩ defaultScene ⟨fun _ => 0, 0⟩
    runWitnessState runWitnessSpheres
    (by
      simp [Simulation.run, delete_all_meshes, select_meshes, delete_selected,
        defaultScene, place_objects_randomly, placeFrom, placeOne, randUniform,
        rngNextUnit, sampleLocation, retryLoop, location_overlaps, randChoice,
        vsub, sphereObject, runWitnessState, runWitnessSpheres]
      norm_num
      rfl)
  ⟨h.1, h.2.1, h.2.2 sphereObject (by simp [runWitnessState]) rfl⟩
